import Mathlib

/-!
Shallow embedding of the ODAS Control Panel evaluation core
(`src/ODAS_ControlPanel.jsx`): the threshold table, the pure
orchestration function `orchestrateControl`, the metric sampler inside
`runOdasScan`, the per-tick status derivation, and the cumulative
system-health derivation of the Global Control Panel dashboard.
JavaScript numbers are modelled as rationals; `Number.prototype.toFixed`
is modelled by exact rounding (ties away from zero for positive inputs,
as ECMAScript specifies).
-/

namespace ODAS

/-- Severity values used by the source: `'Kritis'` (Critical) and
`'Peringatan'` (Warning). -/
inductive Severity where
  | Kritis
  | Peringatan
deriving DecidableEq

/-- The four monitored digital paths: `'Finansial'`, `'Infrastruktur'`,
`'Persona'`, `'Sensor'`. -/
inductive Path where
  | Finansial
  | Infrastruktur
  | Persona
  | Sensor
deriving DecidableEq

/-- An intervention record as pushed by `orchestrateControl`:
`{ path, description, severity }`. The `timestamp` field is attached at
persistence time by the sink and is not part of the evaluator output. -/
structure InterventionRecord where
  path : Path
  description : String
  severity : Severity
deriving DecidableEq

/-- Shape of the `INTERVENTION_THRESHOLDS` configuration object. -/
structure Thresholds where
  MAX_VOLATILITY : ℚ
  MIN_LIQUIDITY : ℚ
  MAX_LATENCY : ℚ
  MIN_SENTIMENT : ℚ
  MAX_ANOMALY_SCORE : ℚ

/-- The static threshold table of the source. -/
def INTERVENTION_THRESHOLDS : Thresholds where
  MAX_VOLATILITY := 15/100
  MIN_LIQUIDITY := 100000
  MAX_LATENCY := 150
  MIN_SENTIMENT := 40/100
  MAX_ANOMALY_SCORE := 85/100

/-- A metric snapshot (`pathData` in the source); the five numeric
fields. The `lastScan` wall-clock string is presentation-only and
not part of the evaluation core. -/
structure PathData where
  assetVolatility : ℚ
  marketLiquidity : ℚ
  systemLatency : ℚ
  publicSentiment : ℚ
  anomalyScore : ℚ
deriving DecidableEq

/-- Left-pad the decimal digits of `r` with zeros to width `d`. -/
def natPad (r d : ℕ) : String :=
  let s := toString r
  String.mk (List.replicate (d - s.length) '0') ++ s

/-- Render the integer `n` as a decimal numeral with the last `d`
digits behind a decimal point (the digit-string layer of `toFixed`). -/
def fixedRender (n : ℤ) (d : ℕ) : String :=
  if d = 0 then toString n
  else
    let m := n.natAbs
    (if n < 0 then "-" else "") ++ toString (m / 10 ^ d) ++ "." ++ natPad (m % 10 ^ d) d

/-- Model of JavaScript `x.toFixed(d)`: round `x` to `d` decimal digits
picking the larger candidate on ties, then render. -/
def toFixed (x : ℚ) (d : ℕ) : String :=
  fixedRender ⌊x * 10 ^ d + 1/2⌋ d

/-- The record pushed when `pathData.assetVolatility` exceeds
`MAX_VOLATILITY`. -/
def volatilityRecord (assetVolatility : ℚ) : InterventionRecord where
  path := Path.Finansial
  description := "Volatilitas aset Kritis (" ++ toFixed (assetVolatility * 100) 1 ++ "%). Memerlukan Chronos Executor (CE) Lock."
  severity := Severity.Kritis

/-- The record pushed when `pathData.marketLiquidity` is below
`MIN_LIQUIDITY`. -/
def liquidityRecord (marketLiquidity : ℚ) : InterventionRecord where
  path := Path.Finansial
  description := "Likuiditas rendah: $" ++ toFixed marketLiquidity 0 ++ ". Memerlukan injeksi dana/stabilisasi."
  severity := Severity.Peringatan

/-- The record pushed when `pathData.systemLatency` exceeds
`MAX_LATENCY`. -/
def latencyRecord (systemLatency : ℚ) : InterventionRecord where
  path := Path.Infrastruktur
  description := "Latency sistem Kritis (" ++ toFixed systemLatency 0 ++ "ms). Memerlukan realokasi sumber daya I/O."
  severity := Severity.Kritis

/-- The record pushed when `pathData.publicSentiment` is below
`MIN_SENTIMENT`. -/
def sentimentRecord (publicSentiment : ℚ) : InterventionRecord where
  path := Path.Persona
  description := "Sentimen Publik Rendah (" ++ toFixed (publicSentiment * 100) 0 ++ "%). Memerlukan Narasi Frame Shift Otomatis."
  severity := Severity.Peringatan

/-- The record pushed when `pathData.anomalyScore` exceeds
`MAX_ANOMALY_SCORE`. -/
def anomalyRecord (anomalyScore : ℚ) : InterventionRecord where
  path := Path.Sensor
  description := "Anomali Data Masif Terdeteksi (" ++ toFixed (anomalyScore * 100) 0 ++ "%). Memerlukan Recursive Resonance Alert (RRA)."
  severity := Severity.Kritis

/-- The ODAS orchestration core: five sequential threshold checks, each
appending (`push`) its record to the `interventions` accumulator. -/
def orchestrateControl (pathData : PathData) : List InterventionRecord :=
  let interventions : List InterventionRecord := []
  let interventions :=
    if pathData.assetVolatility > INTERVENTION_THRESHOLDS.MAX_VOLATILITY then
      interventions ++ [volatilityRecord pathData.assetVolatility]
    else interventions
  let interventions :=
    if pathData.marketLiquidity < INTERVENTION_THRESHOLDS.MIN_LIQUIDITY then
      interventions ++ [liquidityRecord pathData.marketLiquidity]
    else interventions
  let interventions :=
    if pathData.systemLatency > INTERVENTION_THRESHOLDS.MAX_LATENCY then
      interventions ++ [latencyRecord pathData.systemLatency]
    else interventions
  let interventions :=
    if pathData.publicSentiment < INTERVENTION_THRESHOLDS.MIN_SENTIMENT then
      interventions ++ [sentimentRecord pathData.publicSentiment]
    else interventions
  let interventions :=
    if pathData.anomalyScore > INTERVENTION_THRESHOLDS.MAX_ANOMALY_SCORE then
      interventions ++ [anomalyRecord pathData.anomalyScore]
    else interventions
  interventions

/-- Unfolding of `orchestrateControl` into the concatenation of its five
independent checks, in source order. -/
theorem orchestrateControl_def (p : PathData) :
    orchestrateControl p =
      (if p.assetVolatility > INTERVENTION_THRESHOLDS.MAX_VOLATILITY then [volatilityRecord p.assetVolatility] else []) ++
      (if p.marketLiquidity < INTERVENTION_THRESHOLDS.MIN_LIQUIDITY then [liquidityRecord p.marketLiquidity] else []) ++
      (if p.systemLatency > INTERVENTION_THRESHOLDS.MAX_LATENCY then [latencyRecord p.systemLatency] else []) ++
      (if p.publicSentiment < INTERVENTION_THRESHOLDS.MIN_SENTIMENT then [sentimentRecord p.publicSentiment] else []) ++
      (if p.anomalyScore > INTERVENTION_THRESHOLDS.MAX_ANOMALY_SCORE then [anomalyRecord p.anomalyScore] else []) := by
  simp only [orchestrateControl]
  split <;> split <;> split <;> split <;> split <;> simp

/-- Evaluation bridge for `toFixed`: once the rounded integer is pinned
down by rational inequalities, the remaining computation is integer and
string arithmetic. -/
theorem toFixed_eq_fixedRender (x : ℚ) (d : ℕ) (n : ℤ)
    (h1 : (n : ℚ) ≤ x * 10 ^ d + 1/2) (h2 : x * 10 ^ d + 1/2 < n + 1) :
    toFixed x d = fixedRender n d := by
  unfold toFixed
  rw [Int.floor_eq_iff.mpr ⟨h1, h2⟩]

/-- Boolean test that `a` is a leading segment of `b`. -/
def listPrefixEq : List Char → List Char → Bool
  | [], _ => true
  | _ :: _, [] => false
  | a :: as, b :: bs => a == b && listPrefixEq as bs

/-- Boolean test that `pat` occurs contiguously inside `s`. -/
def strHasSub : List Char → List Char → Bool
  | pat, [] => listPrefixEq pat []
  | pat, s@(_ :: t) => listPrefixEq pat s || strHasSub pat t

/-- String-level substring test (used to state "description contains"). -/
def containsSub (s pat : String) : Bool :=
  strHasSub pat.toList s.toList

theorem listPrefixEq_append (a b : List Char) : listPrefixEq a (a ++ b) = true := by
  induction a with
  | nil => rfl
  | cons c as ih => simp [listPrefixEq, ih]

theorem strHasSub_of_listPrefixEq {pat s : List Char} (h : listPrefixEq pat s = true) :
    strHasSub pat s = true := by
  cases s with
  | nil => exact h
  | cons c t => simp [strHasSub, h]

theorem strHasSub_cons {pat t : List Char} (c : Char) (h : strHasSub pat t = true) :
    strHasSub pat (c :: t) = true := by
  simp [strHasSub, h]

theorem strHasSub_append (pre sub post : List Char) :
    strHasSub sub (pre ++ (sub ++ post)) = true := by
  induction pre with
  | nil => exact strHasSub_of_listPrefixEq (listPrefixEq_append sub post)
  | cons c cs ih => exact strHasSub_cons c ih

theorem string_toList_append (a b : String) : (a ++ b).toList = a.toList ++ b.toList := rfl

/-- Any middle factor of a concatenation is found by `containsSub`. -/
theorem containsSub_append (a b c : String) : containsSub (a ++ b ++ c) b = true := by
  unfold containsSub
  rw [string_toList_append, string_toList_append, List.append_assoc]
  exact strHasSub_append a.toList b.toList c.toList

/-- Number of threshold-violating fields of a snapshot, using the
strict comparisons of the source checks. -/
def violationCount (p : PathData) : ℕ :=
  (if p.assetVolatility > INTERVENTION_THRESHOLDS.MAX_VOLATILITY then 1 else 0) +
  (if p.marketLiquidity < INTERVENTION_THRESHOLDS.MIN_LIQUIDITY then 1 else 0) +
  (if p.systemLatency > INTERVENTION_THRESHOLDS.MAX_LATENCY then 1 else 0) +
  (if p.publicSentiment < INTERVENTION_THRESHOLDS.MIN_SENTIMENT then 1 else 0) +
  (if p.anomalyScore > INTERVENTION_THRESHOLDS.MAX_ANOMALY_SCORE then 1 else 0)

/-- One draw of the five `Math.random()` calls made by a `runOdasScan`
tick, each a value in `[0, 1)`. -/
structure RandomDraws where
  volDraw : ℚ
  liqDraw : ℚ
  latDraw : ℚ
  sentDraw : ℚ
  anomDraw : ℚ

/-- The `newPathData` simulation step inside `runOdasScan`: each field
moves by a bounded random delta and is clamped on one side only
(`Math.min` for four fields, `Math.max 0` for liquidity). -/
def newPathData (pathData : PathData) (draws : RandomDraws) : PathData where
  assetVolatility := min (5/10) (pathData.assetVolatility + (draws.volDraw * (1/10) - 5/100))
  marketLiquidity := max 0 (pathData.marketLiquidity + (draws.liqDraw * 50000 - 30000))
  systemLatency := min 300 (pathData.systemLatency + (draws.latDraw * 40 - 20))
  publicSentiment := min 1 (pathData.publicSentiment + (draws.sentDraw * (2/10) - 1/10))
  anomalyScore := min 1 (pathData.anomalyScore + (draws.anomDraw * (3/10) - 1/10))

/-- Iterated sampling: one `newPathData` step per tick of `runOdasScan`,
driven by the successive random draws. -/
def sampleSteps (pathData : PathData) (draws : List RandomDraws) : PathData :=
  draws.foldl newPathData pathData

/-- The per-tick status set by `runOdasScan` from the interventions the
current tick produced: the template string with the count when there is
at least one record, the operationally-normal label otherwise. -/
def odasStatusAfterScan (newInterventions : List InterventionRecord) : String :=
  if newInterventions.length > 0 then
    "Intervensi " ++ toString newInterventions.length ++ " Kritis"
  else "ODAS Operasional Normal"

/-- Number of records with severity `'Kritis'` in the fetched
intervention log (the `criticalCount` of the GCP snapshot handler). -/
def criticalCount (fetchedInterventions : List InterventionRecord) : ℕ :=
  (fetchedInterventions.filter (fun i => i.severity == Severity.Kritis)).length

/-- The GCP dashboard's `systemHealth` derivation from the cumulative
intervention log: `criticalCount > 5` → high alert, `> 0` → warning,
otherwise optimal. -/
def systemHealth (fetchedInterventions : List InterventionRecord) : String :=
  if criticalCount fetchedInterventions > 5 then "Kritis (High Alert)"
  else if criticalCount fetchedInterventions > 0 then "Peringatan"
  else "Optimal"

/-- A snapshot as the evaluator receives it in JavaScript: any field may
be absent (`undefined`). -/
structure JsPathData where
  assetVolatility : Option ℚ
  marketLiquidity : Option ℚ
  systemLatency : Option ℚ
  publicSentiment : Option ℚ
  anomalyScore : Option ℚ

/-- Wrap a well-formed snapshot as a JavaScript object with all five
fields present. -/
def PathData.toJs (p : PathData) : JsPathData where
  assetVolatility := some p.assetVolatility
  marketLiquidity := some p.marketLiquidity
  systemLatency := some p.systemLatency
  publicSentiment := some p.publicSentiment
  anomalyScore := some p.anomalyScore

/-- `orchestrateControl` under JavaScript field-access semantics: a
missing field reads as `undefined`, and `undefined > c` / `undefined < c`
are false (NaN comparison), so the corresponding check never fires and
no exception is ever raised. -/
def orchestrateControlJs (pathData : JsPathData) : List InterventionRecord :=
  let interventions : List InterventionRecord := []
  let interventions :=
    match pathData.assetVolatility with
    | some v => if v > INTERVENTION_THRESHOLDS.MAX_VOLATILITY then interventions ++ [volatilityRecord v] else interventions
    | none => interventions
  let interventions :=
    match pathData.marketLiquidity with
    | some v => if v < INTERVENTION_THRESHOLDS.MIN_LIQUIDITY then interventions ++ [liquidityRecord v] else interventions
    | none => interventions
  let interventions :=
    match pathData.systemLatency with
    | some v => if v > INTERVENTION_THRESHOLDS.MAX_LATENCY then interventions ++ [latencyRecord v] else interventions
    | none => interventions
  let interventions :=
    match pathData.publicSentiment with
    | some v => if v < INTERVENTION_THRESHOLDS.MIN_SENTIMENT then interventions ++ [sentimentRecord v] else interventions
    | none => interventions
  let interventions :=
    match pathData.anomalyScore with
    | some v => if v > INTERVENTION_THRESHOLDS.MAX_ANOMALY_SCORE then interventions ++ [anomalyRecord v] else interventions
    | none => interventions
  interventions

/-- C1: For every metric snapshot, `orchestrateControl` returns one
record per violated bound (its output length equals the number of
violating fields, so multiple violations each yield their own record);
and on the snapshot {volatility 0.20, liquidity 500000, latency 50,
sentiment 0.80, anomaly 0.30} it returns exactly one record with path
Finansial, severity Kritis, and a description containing "20.0%". -/
theorem evaluator_length_eq_violation_count :
    (∀ p : PathData, (orchestrateControl p).length = violationCount p) ∧
    orchestrateControl ⟨2/10, 500000, 50, 8/10, 3/10⟩ = [volatilityRecord (2/10)] ∧
    (volatilityRecord (2/10)).path = Path.Finansial ∧
    (volatilityRecord (2/10)).severity = Severity.Kritis ∧
    containsSub (volatilityRecord (2/10)).description "20.0%" = true := by
  refine ⟨?_, ?_, rfl, rfl, ?_⟩
  · intro p
    rw [orchestrateControl_def, violationCount]
    simp [List.length_append, apply_ite List.length]
    ring
  · rw [orchestrateControl_def]
    norm_num [INTERVENTION_THRESHOLDS]
  · have h20 : toFixed ((2:ℚ)/10 * 100) 1 = "20.0" := by
      rw [toFixed_eq_fixedRender ((2:ℚ)/10 * 100) 1 200 (by norm_num) (by norm_num)]
      decide
    simp only [volatilityRecord, h20]
    decide

theorem mem_ite_singleton {α : Type} {c : Prop} [Decidable c] {x y : α} :
    (x ∈ if c then [y] else []) ↔ c ∧ x = y := by
  split
  · next h => simp [h]
  · next h => simp [h]

/-- C3: Values exactly at a bound never trigger: with volatility exactly
0.15 or liquidity exactly 100000 the corresponding Finansial record is
not produced, and with latency exactly 150, sentiment exactly 0.40 or
anomaly exactly 0.85 no record of the corresponding path is produced. -/
theorem thresholds_are_strict (p : PathData) :
    (p.assetVolatility = 15/100 → volatilityRecord p.assetVolatility ∉ orchestrateControl p) ∧
    (p.marketLiquidity = 100000 → liquidityRecord p.marketLiquidity ∉ orchestrateControl p) ∧
    (p.systemLatency = 150 → ∀ r ∈ orchestrateControl p, r.path ≠ Path.Infrastruktur) ∧
    (p.publicSentiment = 40/100 → ∀ r ∈ orchestrateControl p, r.path ≠ Path.Persona) ∧
    (p.anomalyScore = 85/100 → ∀ r ∈ orchestrateControl p, r.path ≠ Path.Sensor) := by
  refine ⟨?_, ?_, ?_, ?_, ?_⟩
  · intro h hmem
    rw [orchestrateControl_def] at hmem
    simp only [List.mem_append, mem_ite_singleton] at hmem
    rcases hmem with (((⟨hc, he⟩ | ⟨hc, he⟩) | ⟨hc, he⟩) | ⟨hc, he⟩) | ⟨hc, he⟩
    · rw [h] at hc; norm_num [INTERVENTION_THRESHOLDS] at hc
    all_goals simp [volatilityRecord, liquidityRecord, latencyRecord, sentimentRecord,
      anomalyRecord] at he
  · intro h hmem
    rw [orchestrateControl_def] at hmem
    simp only [List.mem_append, mem_ite_singleton] at hmem
    rcases hmem with (((⟨hc, he⟩ | ⟨hc, he⟩) | ⟨hc, he⟩) | ⟨hc, he⟩) | ⟨hc, he⟩
    · simp [volatilityRecord, liquidityRecord] at he
    · rw [h] at hc; norm_num [INTERVENTION_THRESHOLDS] at hc
    all_goals simp [liquidityRecord, latencyRecord, sentimentRecord, anomalyRecord] at he
  · intro h r hmem hpath
    rw [orchestrateControl_def] at hmem
    simp only [List.mem_append, mem_ite_singleton] at hmem
    rcases hmem with (((⟨hc, he⟩ | ⟨hc, he⟩) | ⟨hc, he⟩) | ⟨hc, he⟩) | ⟨hc, he⟩
    · rw [he] at hpath; simp [volatilityRecord] at hpath
    · rw [he] at hpath; simp [liquidityRecord] at hpath
    · rw [h] at hc; norm_num [INTERVENTION_THRESHOLDS] at hc
    · rw [he] at hpath; simp [sentimentRecord] at hpath
    · rw [he] at hpath; simp [anomalyRecord] at hpath
  · intro h r hmem hpath
    rw [orchestrateControl_def] at hmem
    simp only [List.mem_append, mem_ite_singleton] at hmem
    rcases hmem with (((⟨hc, he⟩ | ⟨hc, he⟩) | ⟨hc, he⟩) | ⟨hc, he⟩) | ⟨hc, he⟩
    · rw [he] at hpath; simp [volatilityRecord] at hpath
    · rw [he] at hpath; simp [liquidityRecord] at hpath
    · rw [he] at hpath; simp [latencyRecord] at hpath
    · rw [h] at hc; norm_num [INTERVENTION_THRESHOLDS] at hc
    · rw [he] at hpath; simp [anomalyRecord] at hpath
  · intro h r hmem hpath
    rw [orchestrateControl_def] at hmem
    simp only [List.mem_append, mem_ite_singleton] at hmem
    rcases hmem with (((⟨hc, he⟩ | ⟨hc, he⟩) | ⟨hc, he⟩) | ⟨hc, he⟩) | ⟨hc, he⟩
    · rw [he] at hpath; simp [volatilityRecord] at hpath
    · rw [he] at hpath; simp [liquidityRecord] at hpath
    · rw [he] at hpath; simp [latencyRecord] at hpath
    · rw [he] at hpath; simp [sentimentRecord] at hpath
    · rw [h] at hc; norm_num [INTERVENTION_THRESHOLDS] at hc

/-- C3 witness: at the all-at-bounds snapshot, the boundary fields
produce no record. -/
theorem thresholds_are_strict_witness :
    volatilityRecord ((15:ℚ)/100) ∉ orchestrateControl ⟨15/100, 100000, 150, 40/100, 85/100⟩ ∧
    liquidityRecord (100000 : ℚ) ∉ orchestrateControl ⟨15/100, 100000, 150, 40/100, 85/100⟩ :=
  ⟨(thresholds_are_strict ⟨15/100, 100000, 150, 40/100, 85/100⟩).1 rfl,
   (thresholds_are_strict ⟨15/100, 100000, 150, 40/100, 85/100⟩).2.1 rfl⟩

/-- C4: Records always appear in the fixed evaluation order
Financial-volatility, Financial-liquidity, Infrastructure, Persona,
Sensor: for every snapshot the output is a sublist (order-preserving
subsequence) of the canonical five-record sequence, so in particular the
volatility record precedes the liquidity record whenever both occur; and
a snapshot violating all five thresholds yields exactly the five-record
sequence in that order. -/
theorem ite_singleton_sublist {α : Type} (c : Prop) [Decidable c] (x : α) :
    List.Sublist (if c then [x] else []) [x] := by
  split
  · exact List.Sublist.refl _
  · exact List.nil_sublist _

theorem evaluator_fixed_order :
    (∀ p : PathData,
      List.Sublist (orchestrateControl p)
        [volatilityRecord p.assetVolatility, liquidityRecord p.marketLiquidity,
         latencyRecord p.systemLatency, sentimentRecord p.publicSentiment,
         anomalyRecord p.anomalyScore]) ∧
    (∀ p : PathData,
      p.assetVolatility > INTERVENTION_THRESHOLDS.MAX_VOLATILITY →
      p.marketLiquidity < INTERVENTION_THRESHOLDS.MIN_LIQUIDITY →
      p.systemLatency > INTERVENTION_THRESHOLDS.MAX_LATENCY →
      p.publicSentiment < INTERVENTION_THRESHOLDS.MIN_SENTIMENT →
      p.anomalyScore > INTERVENTION_THRESHOLDS.MAX_ANOMALY_SCORE →
      orchestrateControl p =
        [volatilityRecord p.assetVolatility, liquidityRecord p.marketLiquidity,
         latencyRecord p.systemLatency, sentimentRecord p.publicSentiment,
         anomalyRecord p.anomalyScore]) := by
  constructor
  · intro p
    rw [orchestrateControl_def]
    exact List.Sublist.append (List.Sublist.append (List.Sublist.append (List.Sublist.append
      (ite_singleton_sublist _ (volatilityRecord p.assetVolatility))
      (ite_singleton_sublist _ (liquidityRecord p.marketLiquidity)))
      (ite_singleton_sublist _ (latencyRecord p.systemLatency)))
      (ite_singleton_sublist _ (sentimentRecord p.publicSentiment)))
      (ite_singleton_sublist _ (anomalyRecord p.anomalyScore))
  · intro p h1 h2 h3 h4 h5
    rw [orchestrateControl_def, if_pos h1, if_pos h2, if_pos h3, if_pos h4, if_pos h5]
    simp

/-- C4 witness: a concrete snapshot violating all five thresholds yields
the five records in evaluation order. -/
theorem evaluator_fixed_order_witness :
    orchestrateControl ⟨2/10, 50000, 200, 3/10, 9/10⟩ =
      [volatilityRecord (2/10), liquidityRecord 50000, latencyRecord 200,
       sentimentRecord (3/10), anomalyRecord (9/10)] :=
  evaluator_fixed_order.2 ⟨2/10, 50000, 200, 3/10, 9/10⟩
    (by norm_num [INTERVENTION_THRESHOLDS]) (by norm_num [INTERVENTION_THRESHOLDS])
    (by norm_num [INTERVENTION_THRESHOLDS]) (by norm_num [INTERVENTION_THRESHOLDS])
    (by norm_num [INTERVENTION_THRESHOLDS])

/-- C5: Every record produced is one of the five metric records, and its
severity is statically fixed by its triggering metric (never by
magnitude): volatility, latency and anomaly records are Kritis;
liquidity and sentiment records are Peringatan. -/
theorem severity_fixed_per_metric (p : PathData) :
    ∀ r ∈ orchestrateControl p,
      (r.severity = Severity.Kritis ∧
        (r = volatilityRecord p.assetVolatility ∨ r = latencyRecord p.systemLatency ∨
         r = anomalyRecord p.anomalyScore)) ∨
      (r.severity = Severity.Peringatan ∧
        (r = liquidityRecord p.marketLiquidity ∨ r = sentimentRecord p.publicSentiment)) := by
  intro r hmem
  rw [orchestrateControl_def] at hmem
  simp only [List.mem_append, mem_ite_singleton] at hmem
  rcases hmem with (((⟨hc, he⟩ | ⟨hc, he⟩) | ⟨hc, he⟩) | ⟨hc, he⟩) | ⟨hc, he⟩
  · subst he; exact Or.inl ⟨rfl, Or.inl rfl⟩
  · subst he; exact Or.inr ⟨rfl, Or.inl rfl⟩
  · subst he; exact Or.inl ⟨rfl, Or.inr (Or.inl rfl)⟩
  · subst he; exact Or.inr ⟨rfl, Or.inr rfl⟩
  · subst he; exact Or.inl ⟨rfl, Or.inr (Or.inr rfl)⟩

/-- C5 witness: the record produced on the C1 snapshot is the
volatility record and is Kritis. -/
theorem severity_fixed_per_metric_witness :
    ((volatilityRecord ((2:ℚ)/10)).severity = Severity.Kritis ∧
      (volatilityRecord ((2:ℚ)/10) = volatilityRecord ((2:ℚ)/10) ∨
       volatilityRecord ((2:ℚ)/10) = latencyRecord 50 ∨
       volatilityRecord ((2:ℚ)/10) = anomalyRecord (3/10))) ∨
    ((volatilityRecord ((2:ℚ)/10)).severity = Severity.Peringatan ∧
      (volatilityRecord ((2:ℚ)/10) = liquidityRecord 500000 ∨
       volatilityRecord ((2:ℚ)/10) = sentimentRecord (8/10))) :=
  severity_fixed_per_metric ⟨2/10, 500000, 50, 8/10, 3/10⟩ (volatilityRecord ((2:ℚ)/10))
    (by rw [orchestrateControl_def]; norm_num [INTERVENTION_THRESHOLDS])

/-- Conjunction of the one-sided clamp bounds that the sampler does
enforce: an upper clamp on volatility, latency, sentiment and anomaly,
and a lower clamp at 0 on liquidity. -/
def withinClampBounds (p : PathData) : Prop :=
  p.assetVolatility ≤ 5/10 ∧ 0 ≤ p.marketLiquidity ∧ p.systemLatency ≤ 300 ∧
  p.publicSentiment ≤ 1 ∧ p.anomalyScore ≤ 1

theorem newPathData_withinClampBounds (p : PathData) (draws : RandomDraws) :
    withinClampBounds (newPathData p draws) :=
  ⟨min_le_left _ _, le_max_left _ _, min_le_left _ _, min_le_left _ _, min_le_left _ _⟩

/-- C2 (amended): after at least one sampling step, the clamps the code
actually applies hold — volatility ≤ 0.5, liquidity ≥ 0, latency ≤ 300,
sentiment ≤ 1, anomaly ≤ 1 — for any starting snapshot and any random
draws; the lower ends of the documented ranges are not enforced. -/
theorem sampler_clamp_bounds (p : PathData) (draws : List RandomDraws) (h : draws ≠ []) :
    withinClampBounds (sampleSteps p draws) := by
  induction draws generalizing p with
  | nil => exact absurd rfl h
  | cons r rs ih =>
    cases rs with
    | nil => exact newPathData_withinClampBounds p r
    | cons r2 rs2 => exact ih (newPathData p r) (by simp)

/-- C2 witness: the clamp bounds hold after one concrete step. -/
theorem sampler_clamp_bounds_witness :
    withinClampBounds (sampleSteps ⟨5/100, 500000, 50, 8/10, 3/10⟩ [⟨0, 0, 0, 0, 0⟩]) :=
  sampler_clamp_bounds ⟨5/100, 500000, 50, 8/10, 3/10⟩ [⟨0, 0, 0, 0, 0⟩] (by simp)

/-- C2 counterexample: from the in-range snapshot with volatility 0.01,
one sampling step with all `Math.random()` draws equal to 0 (a value in
`[0, 1)`) makes `assetVolatility` negative: the code clamps it only from
above, so the claimed invariant "no field is ever negative" fails. -/
theorem sampler_can_go_negative :
    (newPathData ⟨1/100, 500000, 50, 8/10, 3/10⟩ ⟨0, 0, 0, 0, 0⟩).assetVolatility < 0 ∧
    (0:ℚ) ≤ 1/100 ∧ (1:ℚ)/100 ≤ 5/10 := by
  refine ⟨?_, by norm_num, by norm_num⟩
  norm_num [newPathData, min_def]

/-- C6 (amended): every record description embeds its triggering value
at display precision as the code computes it — volatility to 1 decimal
place, liquidity to 0 decimals, latency to 0 decimals, and sentiment and
anomaly (unlike volatility) to 0 decimals. -/
theorem description_embeds_formatted_value (p : PathData) :
    containsSub (volatilityRecord p.assetVolatility).description (toFixed (p.assetVolatility * 100) 1) = true ∧
    containsSub (liquidityRecord p.marketLiquidity).description (toFixed p.marketLiquidity 0) = true ∧
    containsSub (latencyRecord p.systemLatency).description (toFixed p.systemLatency 0) = true ∧
    containsSub (sentimentRecord p.publicSentiment).description (toFixed (p.publicSentiment * 100) 0) = true ∧
    containsSub (anomalyRecord p.anomalyScore).description (toFixed (p.anomalyScore * 100) 0) = true :=
  ⟨containsSub_append _ _ _, containsSub_append _ _ _, containsSub_append _ _ _,
   containsSub_append _ _ _, containsSub_append _ _ _⟩

/-- C6 counterexample: on the snapshot with sentiment 0.35 the Persona
record is produced, but its description renders the percentage with
`toFixed(0)` ("35%"), not to 1 decimal place: the 1-decimal rendering
"35.0" does not occur in the description. -/
theorem sentiment_formatting_zero_decimals :
    sentimentRecord ((35:ℚ)/100) ∈ orchestrateControl ⟨5/100, 500000, 50, 35/100, 3/10⟩ ∧
    containsSub (sentimentRecord ((35:ℚ)/100)).description (toFixed ((35:ℚ)/100 * 100) 1) = false := by
  constructor
  · rw [orchestrateControl_def]
    norm_num [INTERVENTION_THRESHOLDS]
  · have h1 : toFixed ((35:ℚ)/100 * 100) 1 = fixedRender 350 1 :=
      toFixed_eq_fixedRender _ 1 350 (by norm_num) (by norm_num)
    have h0 : toFixed ((35:ℚ)/100 * 100) 0 = fixedRender 35 0 :=
      toFixed_eq_fixedRender _ 0 35 (by norm_num) (by norm_num)
    simp only [sentimentRecord, h1, h0]
    decide

/-- Count of fields that are present and violate their bound, under
JavaScript missing-field semantics. -/
def jsViolationCount (q : JsPathData) : ℕ :=
  (match q.assetVolatility with
   | some v => if v > INTERVENTION_THRESHOLDS.MAX_VOLATILITY then 1 else 0
   | none => 0) +
  (match q.marketLiquidity with
   | some v => if v < INTERVENTION_THRESHOLDS.MIN_LIQUIDITY then 1 else 0
   | none => 0) +
  (match q.systemLatency with
   | some v => if v > INTERVENTION_THRESHOLDS.MAX_LATENCY then 1 else 0
   | none => 0) +
  (match q.publicSentiment with
   | some v => if v < INTERVENTION_THRESHOLDS.MIN_SENTIMENT then 1 else 0
   | none => 0) +
  (match q.anomalyScore with
   | some v => if v > INTERVENTION_THRESHOLDS.MAX_ANOMALY_SCORE then 1 else 0
   | none => 0)

/-- C7 (amended): the evaluator is total over well-formed snapshots
(where it agrees with `orchestrateControl`), and it is also total over
malformed snapshots: a missing field compares as false and simply never
fires its check, so a record sequence is always returned and no
MalformedSnapshot error is ever signalled. -/
theorem evaluator_total_even_when_malformed :
    (∀ p : PathData, orchestrateControlJs p.toJs = orchestrateControl p) ∧
    (∀ q : JsPathData, (orchestrateControlJs q).length = jsViolationCount q) := by
  constructor
  · intro p
    rfl
  · intro q
    rcases q with ⟨a, b, c, d, e⟩
    cases a <;> cases b <;> cases c <;> cases d <;> cases e <;>
      simp [orchestrateControlJs, jsViolationCount, apply_ite List.length] <;>
      split_ifs <;> simp_all

/-- C7 witness: the amended totality applied to a concrete well-formed
snapshot and a concrete malformed snapshot. -/
theorem evaluator_total_even_when_malformed_witness :
    orchestrateControlJs (PathData.toJs ⟨2/10, 500000, 50, 8/10, 3/10⟩) =
      orchestrateControl ⟨2/10, 500000, 50, 8/10, 3/10⟩ ∧
    (orchestrateControlJs ⟨none, some 500000, some 50, some (8/10), some (3/10)⟩).length =
      jsViolationCount ⟨none, some 500000, some 50, some (8/10), some (3/10)⟩ :=
  ⟨evaluator_total_even_when_malformed.1 ⟨2/10, 500000, 50, 8/10, 3/10⟩,
   evaluator_total_even_when_malformed.2 ⟨none, some 500000, some 50, some (8/10), some (3/10)⟩⟩

/-- C7 counterexample: on a snapshot missing `assetVolatility` (with the
remaining fields present and in range), the code returns the empty
record sequence instead of signalling a MalformedSnapshot error. -/
theorem malformed_snapshot_returns_normally :
    orchestrateControlJs ⟨none, some 500000, some 50, some (8/10), some (3/10)⟩ = [] := by
  simp only [orchestrateControlJs]
  norm_num [INTERVENTION_THRESHOLDS]

/-- C8: The GCP health label is a function of the cumulative count of
Kritis records: strictly more than 5 yields the high-alert label, 1–5
yields the warning label, 0 yields the optimal label. -/
theorem system_health_from_critical_count (log : List InterventionRecord) :
    (criticalCount log > 5 → systemHealth log = "Kritis (High Alert)") ∧
    (1 ≤ criticalCount log ∧ criticalCount log ≤ 5 → systemHealth log = "Peringatan") ∧
    (criticalCount log = 0 → systemHealth log = "Optimal") := by
  refine ⟨fun h => ?_, fun h => ?_, fun h => ?_⟩
  · rw [systemHealth, if_pos h]
  · rw [systemHealth, if_neg (by omega), if_pos (by omega)]
  · rw [systemHealth, if_neg (by omega), if_neg (by omega)]

/-- C8 witness: a log of 6 Kritis records is high-alert, 3 is warning,
0 is optimal. -/
theorem system_health_from_critical_count_witness :
    systemHealth (List.replicate 6 ⟨Path.Finansial, "x", Severity.Kritis⟩) = "Kritis (High Alert)" ∧
    systemHealth (List.replicate 3 ⟨Path.Finansial, "x", Severity.Kritis⟩) = "Peringatan" ∧
    systemHealth [] = "Optimal" :=
  ⟨(system_health_from_critical_count _).1 (by decide),
   (system_health_from_critical_count _).2.1 (by decide),
   (system_health_from_critical_count _).2.2 (by decide)⟩

/-- C9: Each tick's status is recomputed from that tick's evaluator
output alone: with at least one record it is the intervention-count
template applied to this tick's count, with none it is the
operationally-normal label. -/
theorem tick_status_from_current_output (p : PathData) :
    ((orchestrateControl p).length > 0 →
      odasStatusAfterScan (orchestrateControl p) =
        "Intervensi " ++ toString (orchestrateControl p).length ++ " Kritis") ∧
    ((orchestrateControl p).length = 0 →
      odasStatusAfterScan (orchestrateControl p) = "ODAS Operasional Normal") := by
  constructor
  · intro h
    rw [odasStatusAfterScan, if_pos h]
  · intro h
    rw [odasStatusAfterScan, if_neg (by omega)]

/-- C9 witness: the status on a tick with one intervention and on a tick
with none. -/
theorem tick_status_from_current_output_witness :
    odasStatusAfterScan (orchestrateControl ⟨2/10, 500000, 50, 8/10, 3/10⟩) =
      "Intervensi " ++ toString (orchestrateControl ⟨2/10, 500000, 50, 8/10, 3/10⟩).length ++ " Kritis" ∧
    odasStatusAfterScan (orchestrateControl ⟨5/100, 500000, 50, 8/10, 3/10⟩) =
      "ODAS Operasional Normal" :=
  ⟨(tick_status_from_current_output ⟨2/10, 500000, 50, 8/10, 3/10⟩).1
     (by rw [orchestrateControl_def]; norm_num [INTERVENTION_THRESHOLDS]),
   (tick_status_from_current_output ⟨5/100, 500000, 50, 8/10, 3/10⟩).2
     (by rw [orchestrateControl_def]; norm_num [INTERVENTION_THRESHOLDS])⟩

/-- C10: Warning records never influence the health label: a log with no
Kritis record yields the optimal label no matter how many Peringatan
records it contains. -/
theorem warnings_never_affect_health (log : List InterventionRecord)
    (h : ∀ r ∈ log, r.severity ≠ Severity.Kritis) : systemHealth log = "Optimal" := by
  have hc : criticalCount log = 0 := by
    rw [criticalCount, List.length_eq_zero, List.filter_eq_nil_iff]
    intro a ha
    simp [h a ha]
  rw [systemHealth, hc]
  norm_num

/-- C10 witness: a log of 7 Peringatan records is still Optimal. -/
theorem warnings_never_affect_health_witness :
    systemHealth (List.replicate 7 ⟨Path.Persona, "w", Severity.Peringatan⟩) = "Optimal" :=
  warnings_never_affect_health _ (by decide)

end ODAS
